import Mathlib

/-!
Verification of the automated form-filling pipeline (`src/main.py`).

The program is a single linear pipeline: navigate to a page, extract the
`input` / `select` / `textarea` elements together with their metadata,
build one prompt per field embedding a mock-data JSON record, ask a
completion endpoint for a value (or the sentinel `"SKIP"`), and apply the
value to the page through the driver actions (fill, check, select by
label, select by value).

The page is embedded as a list of element records; an element handle is an
index into that list (the live-reference semantics of the driver).  The
driver actions issued by the filler are reified as an `Effect` list, and
their meaning on the page is given by `applyEffect`.  The completion
endpoint is a parameter `complete : String → Except String String`
(an `Except.error` models a transport or API failure), and driver-side
action failures are modelled by an oracle `ActionOracle` telling which
issued action raises.  Python exception handling becomes explicit
`Except` / `Option` plumbing: the per-field `try` body returns the
effects it performed plus an optional uncaught exception, which the
surrounding handler turns into a report.
-/

namespace FormFiller

/-- Python rendering of an optional string inside an f-string:
`None` renders as the text `"None"`. -/
def pyStr : Option String → String
  | none => "None"
  | some s => s

/-- Drop leading and trailing whitespace from a character list. -/
def stripChars (l : List Char) : List Char :=
  ((l.dropWhile Char.isWhitespace).reverse.dropWhile Char.isWhitespace).reverse

/-- Python `str.strip()`: the string without leading and trailing
whitespace. -/
def pyStrip (s : String) : String := ⟨stripChars s.data⟩

/-- Python `str.lower()`: every character lowercased. -/
def pyLower (s : String) : String := ⟨s.data.map Char.toLower⟩

/-- Python truthiness of an optional string: `None` and the empty string
are falsy, every other string is truthy. -/
def pyTruthy : Option String → Bool
  | none => false
  | some s => !(s == "")

/-- Scalar JSON values, the shape of the mock-data record loaded by
`json.load` in `main`. -/
inductive JVal where
  | str (s : String)
  | int (n : Int)
  | bool (b : Bool)
  | null
deriving Repr, DecidableEq

/-- The mock-data record: a JSON object, keys in insertion order. -/
abbrev MockData := List (String × JVal)

/-- Escaping of a string for JSON output, as `json.dumps` does for the
characters relevant here. -/
def jsonEscape (s : String) : String :=
  s.foldl (fun acc c =>
    if c = '\\' then acc ++ "\\\\"
    else if c = '"' then acc ++ "\\\""
    else acc.push c) ""

/-- A JSON string literal: quoted and escaped. -/
def jsonQuote (s : String) : String := "\"" ++ jsonEscape s ++ "\""

/-- Serialization of one scalar JSON value. -/
def JVal.dump : JVal → String
  | .str s => jsonQuote s
  | .int n => toString n
  | .bool true => "true"
  | .bool false => "false"
  | .null => "null"

/-- The rendering `json.dumps(mock_data, indent=2)` used by
`generate_prompt`: two-space indentation, one key per line. -/
def jsonDumps (d : MockData) : String :=
  match d with
  | [] => "\x7b\x7d"
  | _ =>
    "\x7b\n" ++
      String.intercalate ",\n"
        (d.map (fun kv => "  " ++ jsonQuote kv.1 ++ ": " ++ kv.2.dump)) ++
      "\n\x7d"

/-- One `option` child of a `select` element: its visible label and its
underlying `value` attribute. -/
structure SelOption where
  label : String
  value : String
deriving Repr, DecidableEq

/-- A DOM element as the driver exposes it to this program: the tag name
(as `el.tagName` reports it), the attributes the program reads, the inner
text (for `label` elements), the `option` children (for `select`
elements), and the live state the driver actions mutate. -/
structure Elem where
  tagName : String
  typeAttr : Option String
  name : Option String
  idAttr : Option String
  placeholder : Option String
  valueAttr : Option String
  forAttr : Option String
  innerText : String
  options : List SelOption
  checked : Bool
  currentValue : String
  selected : Option String
deriving Repr, DecidableEq

/-- A page is the document-ordered list of its elements; an element
handle is an index into it. -/
abbrev Page := List Elem

/-- One extracted form field: the element handle plus the metadata
captured by `extract_fields`. -/
structure FormField where
  element : Nat
  name : Option String
  placeholder : Option String
  label : Option String
deriving Repr, DecidableEq

/-- Fixed head of the prompt template of `generate_prompt`, rendering the
field metadata the way the Python f-string does. -/
def promptHead (field : FormField) : String :=
  "\nGiven this form field:\n- Label: " ++ pyStr field.label ++
  "\n- Name attribute: " ++ pyStr field.name ++
  "\n- Placeholder: " ++ pyStr field.placeholder ++
  "\n\nChoose the correct value from this mock data:\n"

/-- Fixed tail of the prompt template of `generate_prompt`. -/
def promptTail : String :=
  "\n\nRespond ONLY with the matching value. If none applies, respond with \"SKIP\".\n"

/-- `generate_prompt(field_info, mock_data)`: the prompt text for one
field, embedding the JSON rendering of the whole mock-data record. -/
def generate_prompt (field : FormField) (mock_data : MockData) : String :=
  promptHead field ++ jsonDumps mock_data ++ promptTail

/-- Tag match of the CSS selector `"input, select, textarea"` used by
`extract_fields` (tag names match case-insensitively in HTML). -/
def isFormControl (e : Elem) : Bool :=
  ["input", "select", "textarea"].contains (pyLower e.tagName)

/-- `page.query_selector(f"label[for=...]")`: the first `label` element
whose `for` attribute equals the given id. -/
def findLabelFor (page : Page) (id : String) : Option Elem :=
  page.find? (fun e => pyLower e.tagName == "label" && e.forAttr == some id)

/-- The `label_text` variable of `extract_fields`: starts as `""`, and is
set to the inner text of the matching `label` element only when the
element has a truthy `id` and such a label exists. -/
def labelTextFor (page : Page) (idAttr : Option String) : String :=
  if pyTruthy idAttr then
    match findLabelFor page (idAttr.getD "") with
    | some lab => lab.innerText
    | none => ""
  else ""

/-- The field record appended by `extract_fields` for the element at
index `i`: `label` is `label_text.strip() if label_text else None`. -/
def mkFormField (page : Page) (i : Nat) (e : Elem) : FormField :=
  let labelText := labelTextFor page e.idAttr
  { element := i
    name := e.name
    placeholder := e.placeholder
    label := if labelText == "" then none else some (pyStrip labelText) }

/-- `extract_fields(page)`: every `input` / `select` / `textarea` element
in document order, paired with its metadata. -/
def extract_fields (page : Page) : List FormField :=
  (page.enum.filter (fun p => isFormControl p.2)).map
    (fun p => mkFormField page p.1 p.2)

/-- A driver action issued by the filler, or a diagnostic line printed by
it.  Mutating actions carry the handle of the element they act on. -/
inductive Effect where
  | fillText (element : Nat) (value : String)
  | check (element : Nat)
  | selectByLabel (element : Nat) (label : String)
  | selectByValue (element : Nat) (value : String)
  | report (msg : String)
deriving Repr, DecidableEq

/-- Whether an effect mutates the page (everything except a printed
report). -/
def Effect.isMutation : Effect → Bool
  | .report _ => false
  | _ => true

/-- The oracle for driver-side action failures: `some msg` means the
driver raises with that message when the action is attempted, `none`
means the action succeeds. -/
abbrev ActionOracle := Effect → Option String

/-- Attempt one driver action under the failure oracle: either the action
is performed, or nothing happens and the exception propagates. -/
def attemptAction (oracle : ActionOracle) (eff : Effect) :
    List Effect × Option String :=
  match oracle eff with
  | none => ([eff], none)
  | some m => ([], some m)

/-- Match of the CSS selector
`input[type=radio][name=...][value=...]` used in the radio branch
(the `type` attribute matches case-insensitively in HTML, `name` and
`value` match exactly). -/
def radioSelectorMatch (nameStr valueStr : String) (e : Elem) : Bool :=
  pyLower e.tagName == "input" &&
  (match e.typeAttr with | some t => pyLower t == "radio" | none => false) &&
  e.name == some nameStr &&
  e.valueAttr == some valueStr

/-- `page.query_selector` for the radio selector: index of the first
matching element in document order. -/
def firstRadio (page : Page) (nameStr valueStr : String) : Option Nat :=
  (page.enum.find? (fun p => radioSelectorMatch nameStr valueStr p.2)).map
    (fun p => p.1)

/-- The input types filled as plain text. -/
def textTypes : List String := ["text", "email", "tel", "number"]

/-- The diagnostic printed when the radio selector finds nothing. -/
def radioNotFoundReport (nameStr valueStr : String) : Effect :=
  .report ("Could not find radio button with name " ++ nameStr ++
    " and value " ++ valueStr)

/-- The diagnostic printed when selecting by label fails. -/
def selectLabelFailReport (field : FormField) (value : String) : Effect :=
  .report ("Could not select option " ++ value ++ " for select field " ++
    pyStr field.name)

/-- The diagnostic printed when selecting by value also fails. -/
def selectValueFailReport (value : String) : Effect :=
  .report ("Could not select option by value " ++ value ++ " either")

/-- The body of the per-field `try` block of `fill_fields`, after the
completion `raw` came back: strip it, stop if it is the `"SKIP"`
sentinel, otherwise dispatch on the tag and type of the element behind
the handle.  Returns the effects performed in order, plus `some msg` when
a driver action raised (the exception the outer handler catches). -/
def fillFieldBody (oracle : ActionOracle) (page : Page) (field : FormField)
    (raw : String) : List Effect × Option String :=
  let value := pyStrip raw
  if value == "SKIP" then ([], none)
  else
    match page[field.element]? with
    | none => ([], some "Element is not attached to the DOM")
    | some el =>
      let tag := pyLower el.tagName
      if tag == "input" then
        if (match el.typeAttr with
            | some t => textTypes.contains t
            | none => false) then
          attemptAction oracle (.fillText field.element value)
        else if el.typeAttr == some "checkbox" &&
            ["yes", "true"].contains (pyLower value) then
          attemptAction oracle (.check field.element)
        else if el.typeAttr == some "radio" then
          match firstRadio page (pyStr field.name) value with
          | some j => attemptAction oracle (.check j)
          | none => ([radioNotFoundReport (pyStr field.name) value], none)
        else ([], none)
      else if tag == "textarea" then
        attemptAction oracle (.fillText field.element value)
      else if tag == "select" then
        let labelEff := Effect.selectByLabel field.element value
        if el.options.any (fun o => o.label == value) &&
            (oracle labelEff).isNone then
          ([labelEff], none)
        else
          let w1 := selectLabelFailReport field value
          let valueEff := Effect.selectByValue field.element value
          if el.options.any (fun o => o.value == value) &&
              (oracle valueEff).isNone then
            ([w1, valueEff], none)
          else
            ([w1, selectValueFailReport value], none)
      else ([], none)

/-- The completion endpoint: one prompt in, one raw completion text out,
or a transport / API failure. -/
abbrev Completion := String → Except String String

/-- The report printed by the `except APIError` handler. -/
def apiErrorReport (field : FormField) (e : String) : Effect :=
  .report ("OpenAI API error for field " ++ pyStr field.name ++ ": " ++ e)

/-- The report printed by the catch-all `except Exception` handler. -/
def unexpectedErrorReport (field : FormField) (e : String) : Effect :=
  .report ("An unexpected error occurred for field " ++ pyStr field.name ++
    ": " ++ e)

/-- One iteration of the loop of `fill_fields`, error handlers included:
call the completion on the prompt of this field, run the fill body, and
turn a resolution failure or an uncaught action failure into a report. -/
def processOneField (oracle : ActionOracle) (page : Page)
    (mock_data : MockData) (complete : Completion) (field : FormField) :
    List Effect :=
  match complete (generate_prompt field mock_data) with
  | .error e => [apiErrorReport field e]
  | .ok raw =>
    match fillFieldBody oracle page field raw with
    | (effs, none) => effs
    | (effs, some m) => effs ++ [unexpectedErrorReport field m]

/-- `fill_fields(fields, page, mock_data)`: iterate over the extracted
fields in order, resolving and applying each one, with both `except`
handlers inlined as in the source loop. -/
def fill_fields (oracle : ActionOracle) (fields : List FormField)
    (page : Page) (mock_data : MockData) (complete : Completion) :
    List Effect :=
  match fields with
  | [] => []
  | field :: rest =>
    (match complete (generate_prompt field mock_data) with
     | .error e => [apiErrorReport field e]
     | .ok raw =>
       match fillFieldBody oracle page field raw with
       | (effs, none) => effs
       | (effs, some m) => effs ++ [unexpectedErrorReport field m]) ++
    fill_fields oracle rest page mock_data complete

/-- Replace the element at index `i` of the page by `f` of it. -/
def modifyAt : Page → Nat → (Elem → Elem) → Page
  | [], _, _ => []
  | e :: rest, 0, f => f e :: rest
  | e :: rest, Nat.succ n, f => e :: modifyAt rest n f

/-- Driver semantics of `select_option(label=...)`: the first option with
that visible label becomes the selected one. -/
def selectOptionByLabel (e : Elem) (lab : String) : Elem :=
  match e.options.find? (fun o => o.label == lab) with
  | some o => { e with selected := some o.value }
  | none => e

/-- Driver semantics of `select_option(value=...)`: the first option with
that underlying value becomes the selected one. -/
def selectOptionByValue (e : Elem) (v : String) : Elem :=
  match e.options.find? (fun o => o.value == v) with
  | some o => { e with selected := some o.value }
  | none => e

/-- Meaning of one effect on the page: `fill` writes the live value,
`check` sets the checked state, the select actions set the selected
option, a report changes nothing. -/
def applyEffect (page : Page) : Effect → Page
  | .fillText i v => modifyAt page i (fun e => { e with currentValue := v })
  | .check i => modifyAt page i (fun e => { e with checked := true })
  | .selectByLabel i lab => modifyAt page i (fun e => selectOptionByLabel e lab)
  | .selectByValue i v => modifyAt page i (fun e => selectOptionByValue e v)
  | .report _ => page

/-- Meaning of an effect list, applied in order. -/
def applyEffects (page : Page) (effs : List Effect) : Page :=
  effs.foldl applyEffect page

/-- Outcome of the whole run as `main` surfaces it. -/
inductive RunStatus where
  | completed
  | errored (msg : String)
deriving Repr, DecidableEq

/-- What the automation phase of `main` leaves behind: the surfaced
status, whether the `finally` block released the page context (which
flushes the video) and the browser, and the effects performed. -/
structure MainResult where
  status : RunStatus
  contextClosed : Bool
  browserClosed : Bool
  effects : List Effect
deriving Repr, DecidableEq

/-- The body of the `try` block of `main`: `page.goto` (outcome `nav`),
then `extract_fields` (where a driver failure while querying the page is
modelled by `extractExc`), then `fill_fields`. -/
def tryBlock (nav : Except String Unit) (extractExc : Option String)
    (oracle : ActionOracle) (page : Page) (mock_data : MockData)
    (complete : Completion) : Except String (List Effect) :=
  match nav with
  | .error e => .error e
  | .ok _ =>
    match extractExc with
    | some m => .error m
    | none =>
      .ok (fill_fields oracle (extract_fields page) page mock_data complete)

/-- The automation phase of `main`: run the `try` body; on an uncaught
exception print the error (an errored status); in both cases the
`finally` block closes the context and the browser. -/
def runAutomation (nav : Except String Unit) (extractExc : Option String)
    (oracle : ActionOracle) (page : Page) (mock_data : MockData)
    (complete : Completion) : MainResult :=
  match tryBlock nav extractExc oracle page mock_data complete with
  | .ok effs =>
    { status := .completed
      contextClosed := true
      browserClosed := true
      effects := effs }
  | .error e =>
    { status := .errored ("An error occurred during Playwright operations: " ++ e)
      contextClosed := true
      browserClosed := true
      effects := [] }

/-! ### Helper lemmas -/

/-- A hit of the radio query points at an element of the page that
satisfies the radio selector. -/
theorem firstRadio_spec (page : Page) (nameStr valueStr : String) (j : Nat)
    (h : firstRadio page nameStr valueStr = some j) :
    ∃ e, page[j]? = some e ∧ radioSelectorMatch nameStr valueStr e = true := by
  unfold firstRadio at h
  cases hfind : page.enum.find? (fun p => radioSelectorMatch nameStr valueStr p.2) with
  | none => rw [hfind] at h; exact absurd h (by simp)
  | some p =>
    rw [hfind] at h
    obtain ⟨i, e⟩ := p
    have hij : i = j := by simpa using h
    have hpred : radioSelectorMatch nameStr valueStr e = true := by
      simpa using List.find?_some hfind
    have hget : page[i]? = some e :=
      List.mk_mem_enum_iff_getElem?.mp (List.mem_of_find?_eq_some hfind)
    subst hij
    exact ⟨e, hget, hpred⟩

/-- An element satisfying the radio selector has the queried `name` and
`value` attributes. -/
theorem radioSelectorMatch_attrs {nameStr valueStr : String} {e : Elem}
    (h : radioSelectorMatch nameStr valueStr e = true) :
    e.name = some nameStr ∧ e.valueAttr = some valueStr := by
  unfold radioSelectorMatch at h
  simp only [Bool.and_eq_true, beq_iff_eq] at h
  exact ⟨h.1.2, h.2⟩

/-- Pointwise description of `modifyAt`. -/
theorem getElem?_modifyAt (l : Page) (i j : Nat) (f : Elem → Elem) :
    (modifyAt l i f)[j]? = if i = j then (l[j]?).map f else l[j]? := by
  induction l generalizing i j with
  | nil => simp [modifyAt]
  | cons e rest ih =>
    cases i with
    | zero =>
      cases j with
      | zero => simp [modifyAt]
      | succ j => simp [modifyAt]
    | succ i =>
      cases j with
      | zero => simp [modifyAt]
      | succ j => simpa [modifyAt, Nat.succ_inj] using ih i j

/-- Selecting an option by label does not touch the checked state. -/
theorem selectOptionByLabel_checked (e : Elem) (lab : String) :
    (selectOptionByLabel e lab).checked = e.checked := by
  unfold selectOptionByLabel
  cases h : e.options.find? (fun o => o.label == lab) <;> simp

/-- Selecting an option by value does not touch the checked state. -/
theorem selectOptionByValue_checked (e : Elem) (v : String) :
    (selectOptionByValue e v).checked = e.checked := by
  unfold selectOptionByValue
  cases h : e.options.find? (fun o => o.value == v) <;> simp

/-- Updating one element through a checked-preserving function keeps
every checked element checked. -/
theorem checked_mono_modifyAt (l : Page) (i j : Nat) (f : Elem → Elem)
    (hf : ∀ x, x.checked = true → (f x).checked = true)
    (e : Elem) (hj : l[j]? = some e) (hc : e.checked = true) :
    ∃ e2, (modifyAt l i f)[j]? = some e2 ∧ e2.checked = true := by
  rw [getElem?_modifyAt]
  by_cases hij : i = j
  · rw [if_pos hij, hj]
    exact ⟨f e, rfl, hf e hc⟩
  · rw [if_neg hij]
    exact ⟨e, hj, hc⟩

/-- No single effect can turn a checked element into an unchecked one. -/
theorem checked_mono_applyEffect (page : Page) (eff : Effect) (j : Nat)
    (e : Elem) (hj : page[j]? = some e) (hc : e.checked = true) :
    ∃ e2, (applyEffect page eff)[j]? = some e2 ∧ e2.checked = true := by
  cases eff with
  | fillText i v =>
    exact checked_mono_modifyAt page i j _ (fun x hx => hx) e hj hc
  | check i =>
    exact checked_mono_modifyAt page i j _ (fun x hx => rfl) e hj hc
  | selectByLabel i lab =>
    exact checked_mono_modifyAt page i j _
      (fun x hx => by rw [selectOptionByLabel_checked]; exact hx) e hj hc
  | selectByValue i v =>
    exact checked_mono_modifyAt page i j _
      (fun x hx => by rw [selectOptionByValue_checked]; exact hx) e hj hc
  | report m => exact ⟨e, hj, hc⟩

/-- No effect sequence can turn a checked element into an unchecked one. -/
theorem checked_mono_applyEffects (effs : List Effect) (page : Page) (j : Nat)
    (e : Elem) (hj : page[j]? = some e) (hc : e.checked = true) :
    ∃ e2, (applyEffects page effs)[j]? = some e2 ∧ e2.checked = true := by
  induction effs generalizing page e with
  | nil => exact ⟨e, hj, hc⟩
  | cons eff rest ih =>
    obtain ⟨e1, h1, hc1⟩ := checked_mono_applyEffect page eff j e hj hc
    exact ih (applyEffect page eff) e1 h1 hc1

/-! ### Concrete sample data for closed instances -/

/-- An action oracle under which every driver action succeeds. -/
def noFailOracle : ActionOracle := fun _ => none

/-- An action oracle under which every driver action raises. -/
def failOracle : ActionOracle := fun _ => some "element not interactable"

/-- A completion endpoint that always reports an API failure. -/
def errorComplete : Completion := fun _ => .error "API down"

/-- A completion endpoint that always answers with the given text. -/
def okComplete (s : String) : Completion := fun _ => .ok s

/-- A bare element; samples override individual fields. -/
def baseElem : Elem :=
  { tagName := "INPUT", typeAttr := none, name := none, idAttr := none,
    placeholder := none, valueAttr := none, forAttr := none,
    innerText := "", options := [], checked := false,
    currentValue := "", selected := none }

/-- A checkbox input named `agree`. -/
def sampleCheckbox : Elem :=
  { baseElem with typeAttr := some "checkbox", name := some "agree" }

/-- A select named `color` with options Red / Green / Blue over values
`r` / `g` / `b`. -/
def sampleSelect : Elem :=
  { baseElem with
    tagName := "SELECT"
    name := some "color"
    options := [⟨"Red", "r"⟩, ⟨"Green", "g"⟩, ⟨"Blue", "b"⟩] }

/-- A radio input of the `size` group with value `S`. -/
def sampleRadioS : Elem :=
  { baseElem with
    typeAttr := some "radio"
    name := some "size"
    valueAttr := some "S"
    checked := true }

/-- A radio input of the `size` group with value `M`. -/
def sampleRadioM : Elem :=
  { baseElem with
    typeAttr := some "radio"
    name := some "size"
    valueAttr := some "M" }

/-- A label element for the id `em`. -/
def sampleLabel : Elem :=
  { baseElem with
    tagName := "LABEL"
    forAttr := some "em"
    innerText := "  Email  " }

/-- A text input named `email` with id `em`. -/
def sampleEmailInput : Elem :=
  { baseElem with
    typeAttr := some "text"
    name := some "email"
    idAttr := some "em" }

/-- A hidden input, a type the filler has no branch for. -/
def sampleHidden : Elem :=
  { baseElem with typeAttr := some "hidden", name := some "secret" }

/-- A field record pointing at element 0 with the given name. -/
def sampleField (n : String) : FormField :=
  { element := 0, name := some n, placeholder := none, label := none }

/-! ### The claims -/

/-- C1: for every extracted field of any tag or type, if the trimmed
completion is exactly the string `"SKIP"` (case-sensitive), the filler
performs no page mutation on that field: the fill body issues no fill,
check or select action (and no report either), and the field contributes
nothing to the effect stream of the run. -/
theorem claim_C1 (oracle : ActionOracle) (page : Page) (mock_data : MockData)
    (complete : Completion) (field : FormField) (raw : String)
    (hres : complete (generate_prompt field mock_data) = .ok raw)
    (hskip : pyStrip raw = "SKIP") :
    fillFieldBody oracle page field raw = ([], none) ∧
    processOneField oracle page mock_data complete field = [] := by
  have hbody : fillFieldBody oracle page field raw = ([], none) := by
    unfold fillFieldBody
    simp [hskip]
  refine ⟨hbody, ?_⟩
  unfold processOneField
  simp only [hres, hbody]

/-- Closed instance of C1: a completion answering `" SKIP "` leaves a
checkbox field without any effect. -/
theorem claim_C1_witness :
    fillFieldBody noFailOracle [sampleCheckbox] (sampleField "agree") " SKIP " =
      ([], none) ∧
    processOneField noFailOracle [sampleCheckbox] [] (okComplete " SKIP ")
      (sampleField "agree") = [] :=
  claim_C1 noFailOracle [sampleCheckbox] [] (okComplete " SKIP ")
    (sampleField "agree") " SKIP " rfl (by decide)

/-- C5: every per-field failure is contained to that field.  The effect
stream of `fill_fields` is exactly the concatenation of the per-field
outcomes, one per extracted field in order, so no exception crosses a
field boundary and processing always continues to the next field; a
resolution failure makes the field contribute exactly one API-error
report (no retry, no action), and an action failure makes it contribute
the effects performed before the failure plus one error report. -/
theorem claim_C5 (oracle : ActionOracle) (page : Page) (mock_data : MockData)
    (complete : Completion) :
    (∀ fields : List FormField,
      fill_fields oracle fields page mock_data complete =
        (fields.map (processOneField oracle page mock_data complete)).flatten) ∧
    (∀ field e, complete (generate_prompt field mock_data) = .error e →
      processOneField oracle page mock_data complete field =
        [apiErrorReport field e]) ∧
    (∀ field raw effs m, complete (generate_prompt field mock_data) = .ok raw →
      fillFieldBody oracle page field raw = (effs, some m) →
      processOneField oracle page mock_data complete field =
        effs ++ [unexpectedErrorReport field m]) := by
  refine ⟨?_, ?_, ?_⟩
  · intro fields
    induction fields with
    | nil => rfl
    | cons f rest ih =>
      rw [fill_fields, List.map_cons, List.flatten_cons, ih]
      rfl
  · intro field e h
    unfold processOneField
    rw [h]
  · intro field raw effs m h1 h2
    unfold processOneField
    simp only [h1, h2]

/-- Closed instance of C5: two fields where the completion endpoint is
down both produce their own report and both get processed; a failing
driver action is caught and reported. -/
theorem claim_C5_witness :
    fill_fields noFailOracle [sampleField "agree", sampleField "color"]
        [sampleCheckbox] [] errorComplete =
      (([sampleField "agree", sampleField "color"]).map
        (processOneField noFailOracle [sampleCheckbox] [] errorComplete)).flatten ∧
    processOneField noFailOracle [sampleCheckbox] [] errorComplete
        (sampleField "agree") = [apiErrorReport (sampleField "agree") "API down"] ∧
    processOneField failOracle [sampleEmailInput] [] (okComplete "x")
        (sampleField "email") =
      [] ++ [unexpectedErrorReport (sampleField "email") "element not interactable"] :=
  ⟨(claim_C5 noFailOracle [sampleCheckbox] [] errorComplete).1
      [sampleField "agree", sampleField "color"],
   (claim_C5 noFailOracle [sampleCheckbox] [] errorComplete).2.1
      (sampleField "agree") "API down" rfl,
   (claim_C5 failOracle [sampleEmailInput] [] (okComplete "x")).2.2
      (sampleField "email") "x" [] "element not interactable" rfl (by decide)⟩

/-- C6: for every run reaching the automation phase and every exit path,
the `finally` block closes the page context (flushing the video) and the
browser; an uncaught exception of the `try` body (navigation included)
is reported and the run ends with an errored status instead of crashing
silently, while a normal pass completes with the performed effects. -/
theorem claim_C6 (nav : Except String Unit) (extractExc : Option String)
    (oracle : ActionOracle) (page : Page) (mock_data : MockData)
    (complete : Completion) :
    (runAutomation nav extractExc oracle page mock_data complete).contextClosed = true ∧
    (runAutomation nav extractExc oracle page mock_data complete).browserClosed = true ∧
    (∀ e, tryBlock nav extractExc oracle page mock_data complete = .error e →
      (runAutomation nav extractExc oracle page mock_data complete).status =
        .errored ("An error occurred during Playwright operations: " ++ e)) ∧
    (∀ e, nav = .error e →
      tryBlock nav extractExc oracle page mock_data complete = .error e) ∧
    (∀ effs, tryBlock nav extractExc oracle page mock_data complete = .ok effs →
      (runAutomation nav extractExc oracle page mock_data complete).status =
          .completed ∧
        (runAutomation nav extractExc oracle page mock_data complete).effects =
          effs) := by
  refine ⟨?_, ?_, ?_, ?_, ?_⟩
  · unfold runAutomation
    cases tryBlock nav extractExc oracle page mock_data complete <;> rfl
  · unfold runAutomation
    cases tryBlock nav extractExc oracle page mock_data complete <;> rfl
  · intro e h
    unfold runAutomation
    rw [h]
  · intro e h
    unfold tryBlock
    rw [h]
  · intro effs h
    unfold runAutomation
    rw [h]
    exact ⟨rfl, rfl⟩

/-- Closed instance of C6: an unreachable URL still gets the context and
browser closed, and surfaces an errored status with the navigation
message. -/
theorem claim_C6_witness :
    (runAutomation (.error "net::ERR_NAME_NOT_RESOLVED") none noFailOracle
      [] [] (okComplete "x")).contextClosed = true ∧
    (runAutomation (.error "net::ERR_NAME_NOT_RESOLVED") none noFailOracle
      [] [] (okComplete "x")).browserClosed = true ∧
    (runAutomation (.error "net::ERR_NAME_NOT_RESOLVED") none noFailOracle
      [] [] (okComplete "x")).status =
      .errored ("An error occurred during Playwright operations: " ++
        "net::ERR_NAME_NOT_RESOLVED") := by
  have h := claim_C6 (.error "net::ERR_NAME_NOT_RESOLVED") none noFailOracle
    [] [] (okComplete "x")
  exact ⟨h.1, h.2.1, h.2.2.1 "net::ERR_NAME_NOT_RESOLVED"
    (h.2.2.2.1 "net::ERR_NAME_NOT_RESOLVED" rfl)⟩

/-- C7: the prompt builder is a pure function of the field metadata and
the mock-data record; the generated text contains the JSON rendering of
the full mock-data record verbatim as a substring, and identical inputs
regenerate identical prompt text. -/
theorem claim_C7 (field : FormField) (mock_data : MockData) :
    (∃ pre post, generate_prompt field mock_data =
      pre ++ jsonDumps mock_data ++ post) ∧
    (∀ field2 mock2, field = field2 → mock_data = mock2 →
      generate_prompt field mock_data = generate_prompt field2 mock2) :=
  ⟨⟨promptHead field, promptTail, rfl⟩, fun _ _ h1 h2 => by rw [h1, h2]⟩

/-- Closed instance of C7 on a concrete field and a concrete two-key
mock record. -/
theorem claim_C7_witness :
    (∃ pre post,
      generate_prompt (sampleField "email")
          [("full_name", JVal.str "Jane Doe"), ("email", JVal.str "jane@example.com")] =
        pre ++ jsonDumps
          [("full_name", JVal.str "Jane Doe"), ("email", JVal.str "jane@example.com")] ++
          post) ∧
    generate_prompt (sampleField "email")
        [("full_name", JVal.str "Jane Doe"), ("email", JVal.str "jane@example.com")] =
      generate_prompt (sampleField "email")
        [("full_name", JVal.str "Jane Doe"), ("email", JVal.str "jane@example.com")] :=
  ⟨(claim_C7 (sampleField "email")
      [("full_name", JVal.str "Jane Doe"), ("email", JVal.str "jane@example.com")]).1,
   (claim_C7 (sampleField "email")
      [("full_name", JVal.str "Jane Doe"), ("email", JVal.str "jane@example.com")]).2
      (sampleField "email")
      [("full_name", JVal.str "Jane Doe"), ("email", JVal.str "jane@example.com")]
      rfl rfl⟩

/-- C2: for every select element and every non-SKIP resolved value, the
filler first attempts selection by the visible option label; only when
that attempt fails (no matching label, or the driver raises) does it
attempt selection by the underlying value attribute — when the label
attempt succeeds the only effect is the label selection, so value-match
is never attempted; and when both attempts fail the field receives only
non-fatal diagnostics and no selection is made. -/
theorem claim_C2 (oracle : ActionOracle) (page : Page) (field : FormField)
    (el : Elem) (raw : String)
    (hel : page[field.element]? = some el)
    (htag : pyLower el.tagName = "select")
    (hskip : pyStrip raw ≠ "SKIP") :
    ((el.options.any (fun o => o.label == pyStrip raw) &&
        (oracle (Effect.selectByLabel field.element (pyStrip raw))).isNone) = true →
      fillFieldBody oracle page field raw =
        ([Effect.selectByLabel field.element (pyStrip raw)], none)) ∧
    ((el.options.any (fun o => o.label == pyStrip raw) &&
        (oracle (Effect.selectByLabel field.element (pyStrip raw))).isNone) = false →
      ((el.options.any (fun o => o.value == pyStrip raw) &&
          (oracle (Effect.selectByValue field.element (pyStrip raw))).isNone) = true →
        fillFieldBody oracle page field raw =
          ([selectLabelFailReport field (pyStrip raw),
            Effect.selectByValue field.element (pyStrip raw)], none)) ∧
      ((el.options.any (fun o => o.value == pyStrip raw) &&
          (oracle (Effect.selectByValue field.element (pyStrip raw))).isNone) = false →
        fillFieldBody oracle page field raw =
          ([selectLabelFailReport field (pyStrip raw),
            selectValueFailReport (pyStrip raw)], none))) := by
  have hred : fillFieldBody oracle page field raw =
      (if el.options.any (fun o => o.label == pyStrip raw) &&
          (oracle (Effect.selectByLabel field.element (pyStrip raw))).isNone then
        ([Effect.selectByLabel field.element (pyStrip raw)], none)
      else if el.options.any (fun o => o.value == pyStrip raw) &&
          (oracle (Effect.selectByValue field.element (pyStrip raw))).isNone then
        ([selectLabelFailReport field (pyStrip raw),
          Effect.selectByValue field.element (pyStrip raw)], none)
      else
        ([selectLabelFailReport field (pyStrip raw),
          selectValueFailReport (pyStrip raw)], none)) := by
    unfold fillFieldBody
    simp [hel, htag, beq_eq_false_iff_ne.mpr hskip]
  refine ⟨fun h1 => ?_, fun h1 => ⟨fun h2 => ?_, fun h2 => ?_⟩⟩
  · rw [hred]
    simp [h1]
  · rw [hred]
    simp [h1, h2]
  · rw [hred]
    simp [h1, h2]

/-- Closed instance of C2 on a Red / Green / Blue select: the value
`Green` selects by label and never attempts value-match, the value `g`
falls back to value-match after a diagnostic, and the value `Purple`
produces the two diagnostics and no selection. -/
theorem claim_C2_witness :
    fillFieldBody noFailOracle [sampleSelect] (sampleField "color") "Green" =
      ([Effect.selectByLabel 0 "Green"], none) ∧
    fillFieldBody noFailOracle [sampleSelect] (sampleField "color") "g" =
      ([selectLabelFailReport (sampleField "color") "g",
        Effect.selectByValue 0 "g"], none) ∧
    fillFieldBody noFailOracle [sampleSelect] (sampleField "color") "Purple" =
      ([selectLabelFailReport (sampleField "color") "Purple",
        selectValueFailReport "Purple"], none) :=
  ⟨(claim_C2 noFailOracle [sampleSelect] (sampleField "color") sampleSelect
      "Green" rfl (by decide) (by decide)).1 (by decide),
   ((claim_C2 noFailOracle [sampleSelect] (sampleField "color") sampleSelect
      "g" rfl (by decide) (by decide)).2 (by decide)).1 (by decide),
   ((claim_C2 noFailOracle [sampleSelect] (sampleField "color") sampleSelect
      "Purple" rfl (by decide) (by decide)).2 (by decide)).2 (by decide)⟩

/-- C3: a checkbox input gets a check action exactly when the resolved
value compares case-insensitively equal to `yes` or `true` (and the
driver performs the action); any other value, `no` and `false` included,
triggers no check action. -/
theorem claim_C3 (oracle : ActionOracle) (page : Page) (field : FormField)
    (el : Elem) (raw : String)
    (hel : page[field.element]? = some el)
    (htag : pyLower el.tagName = "input")
    (hty : el.typeAttr = some "checkbox") :
    Effect.check field.element ∈ (fillFieldBody oracle page field raw).1 ↔
      ((["yes", "true"].contains (pyLower (pyStrip raw))) = true ∧
        oracle (Effect.check field.element) = none) := by
  have hred : fillFieldBody oracle page field raw =
      (if pyStrip raw == "SKIP" then ([], none)
       else if ["yes", "true"].contains (pyLower (pyStrip raw)) then
         attemptAction oracle (Effect.check field.element)
       else ([], none)) := by
    unfold fillFieldBody
    simp [hel, htag, hty, textTypes]
  rw [hred]
  by_cases hskip : (pyStrip raw == "SKIP") = true
  · have hlow : pyLower (pyStrip raw) = "skip" := by
      rw [eq_of_beq hskip]; decide
    simp [hskip, hlow]
  · rw [Bool.not_eq_true] at hskip
    rw [hskip]
    by_cases hc : (["yes", "true"].contains (pyLower (pyStrip raw))) = true
    · rw [hc]
      unfold attemptAction
      cases ho : oracle (Effect.check field.element) with
      | none => simp [hc, ho]
      | some m => simp [hc, ho]
    · rw [Bool.not_eq_true] at hc
      rw [hc]
      simp [hc]

/-- Closed instance of C3: `yes`, `Yes` and `TRUE` check the box, `no`
and `false` do not. -/
theorem claim_C3_witness :
    Effect.check 0 ∈
      (fillFieldBody noFailOracle [sampleCheckbox] (sampleField "agree") "yes").1 ∧
    Effect.check 0 ∈
      (fillFieldBody noFailOracle [sampleCheckbox] (sampleField "agree") "Yes").1 ∧
    Effect.check 0 ∈
      (fillFieldBody noFailOracle [sampleCheckbox] (sampleField "agree") "TRUE").1 ∧
    Effect.check 0 ∉
      (fillFieldBody noFailOracle [sampleCheckbox] (sampleField "agree") "no").1 ∧
    Effect.check 0 ∉
      (fillFieldBody noFailOracle [sampleCheckbox] (sampleField "agree") "false").1 :=
  ⟨(claim_C3 noFailOracle [sampleCheckbox] (sampleField "agree") sampleCheckbox
      "yes" rfl (by decide) rfl).mpr ⟨by decide, rfl⟩,
   (claim_C3 noFailOracle [sampleCheckbox] (sampleField "agree") sampleCheckbox
      "Yes" rfl (by decide) rfl).mpr ⟨by decide, rfl⟩,
   (claim_C3 noFailOracle [sampleCheckbox] (sampleField "agree") sampleCheckbox
      "TRUE" rfl (by decide) rfl).mpr ⟨by decide, rfl⟩,
   fun h => absurd ((claim_C3 noFailOracle [sampleCheckbox] (sampleField "agree")
      sampleCheckbox "no" rfl (by decide) rfl).mp h).1 (by decide),
   fun h => absurd ((claim_C3 noFailOracle [sampleCheckbox] (sampleField "agree")
      sampleCheckbox "false" rfl (by decide) rfl).mp h).1 (by decide)⟩

/-- C4: a radio input is resolved by querying, among elements carrying
the field's name, the first radio whose own `value` attribute equals the
resolved value by case-sensitive exact match; when it exists the only
effect is checking that radio, and when it does not the filler emits one
non-fatal diagnostic, mutates nothing, and raises no exception. -/
theorem claim_C4 (oracle : ActionOracle) (page : Page) (field : FormField)
    (el : Elem) (raw : String)
    (hel : page[field.element]? = some el)
    (htag : pyLower el.tagName = "input")
    (hty : el.typeAttr = some "radio")
    (hskip : pyStrip raw ≠ "SKIP") :
    (∀ j, firstRadio page (pyStr field.name) (pyStrip raw) = some j →
      (∃ e, page[j]? = some e ∧ e.name = some (pyStr field.name) ∧
        e.valueAttr = some (pyStrip raw)) ∧
      (oracle (Effect.check j) = none →
        fillFieldBody oracle page field raw = ([Effect.check j], none))) ∧
    (firstRadio page (pyStr field.name) (pyStrip raw) = none →
      fillFieldBody oracle page field raw =
        ([radioNotFoundReport (pyStr field.name) (pyStrip raw)], none)) := by
  have hred : fillFieldBody oracle page field raw =
      (match firstRadio page (pyStr field.name) (pyStrip raw) with
       | some j => attemptAction oracle (Effect.check j)
       | none => ([radioNotFoundReport (pyStr field.name) (pyStrip raw)], none)) := by
    unfold fillFieldBody
    simp [hel, htag, hty, textTypes, beq_eq_false_iff_ne.mpr hskip]
  constructor
  · intro j hj
    obtain ⟨e, he, hmatch⟩ := firstRadio_spec page _ _ j hj
    obtain ⟨hn, hv⟩ := radioSelectorMatch_attrs hmatch
    refine ⟨⟨e, he, hn, hv⟩, fun ho => ?_⟩
    rw [hred, hj]
    show attemptAction oracle (Effect.check j) = ([Effect.check j], none)
    unfold attemptAction
    rw [ho]
  · intro hj
    rw [hred, hj]

/-- Closed instance of C4 on a two-radio `size` group: the value `M`
checks exactly the radio whose `value` attribute is `M`, and the value
`XL` matches nothing, producing only the diagnostic. -/
theorem claim_C4_witness :
    (∃ e, (([sampleRadioS, sampleRadioM] : Page))[1]? = some e ∧
      e.name = some "size" ∧ e.valueAttr = some "M") ∧
    fillFieldBody noFailOracle [sampleRadioS, sampleRadioM]
        (sampleField "size") "M" = ([Effect.check 1], none) ∧
    fillFieldBody noFailOracle [sampleRadioS, sampleRadioM]
        (sampleField "size") "XL" =
      ([radioNotFoundReport "size" "XL"], none) := by
  have hM := claim_C4 noFailOracle [sampleRadioS, sampleRadioM]
    (sampleField "size") sampleRadioS "M" rfl (by decide) rfl (by decide)
  have hXL := claim_C4 noFailOracle [sampleRadioS, sampleRadioM]
    (sampleField "size") sampleRadioS "XL" rfl (by decide) rfl (by decide)
  exact ⟨(hM.1 1 (by decide)).1, (hM.1 1 (by decide)).2 rfl, hXL.2 (by decide)⟩

/-- C8: an extracted element with no `id` attribute gets no label; and a
present label can only come from the first `label` element whose `for`
attribute equals the element's id, in which case the stored label is
that label's trimmed inner text. -/
theorem claim_C8 (page : Page) (f : FormField) (hf : f ∈ extract_fields page) :
    (∀ el, page[f.element]? = some el → el.idAttr = none → f.label = none) ∧
    (∀ s, f.label = some s →
      ∃ el lab, page[f.element]? = some el ∧ pyTruthy el.idAttr = true ∧
        findLabelFor page (el.idAttr.getD "") = some lab ∧
        pyLower lab.tagName = "label" ∧ lab.forAttr = el.idAttr ∧
        s = pyStrip lab.innerText) := by
  unfold extract_fields at hf
  obtain ⟨⟨i, e⟩, hmem, hfeq⟩ := List.mem_map.mp hf
  obtain ⟨henum, hctrl⟩ := List.mem_filter.mp hmem
  have hpage : page[i]? = some e := List.mk_mem_enum_iff_getElem?.mp henum
  subst hfeq
  constructor
  · intro el hel hid
    have hel2 : page[i]? = some el := hel
    rw [hpage] at hel2
    have hee : e = el := Option.some.inj hel2
    have hide : e.idAttr = none := by rw [hee]; exact hid
    simp [mkFormField, labelTextFor, pyTruthy, hide]
  · intro s hs
    have hs2 : (if labelTextFor page e.idAttr == "" then none
        else some (pyStrip (labelTextFor page e.idAttr))) = some s := hs
    by_cases hT : pyTruthy e.idAttr = true
    · cases hfind : findLabelFor page (e.idAttr.getD "") with
      | none =>
        have hlt : labelTextFor page e.idAttr = "" := by
          unfold labelTextFor
          rw [hT, hfind]
          rfl
        rw [hlt] at hs2
        exact absurd hs2 (by simp)
      | some lab =>
        have hlt : labelTextFor page e.idAttr = lab.innerText := by
          unfold labelTextFor
          rw [hT, hfind]
          rfl
        rw [hlt] at hs2
        by_cases hemp : (lab.innerText == "") = true
        · rw [if_pos hemp] at hs2
          exact absurd hs2 (by simp)
        · rw [Bool.not_eq_true] at hemp
          rw [hemp] at hs2
          have hss : s = pyStrip lab.innerText :=
            (Option.some.inj (by simpa using hs2)).symm
          have hpred := List.find?_some hfind
          simp only [Bool.and_eq_true, beq_iff_eq] at hpred
          obtain ⟨hlab, hfor⟩ := hpred
          cases hid : e.idAttr with
          | none => rw [hid] at hT; exact absurd hT (by simp [pyTruthy])
          | some idv =>
            refine ⟨e, lab, hpage, hT, hfind, hlab, ?_, hss⟩
            rw [hfor, hid]
            rfl
    · have hlt : labelTextFor page e.idAttr = "" := by
        unfold labelTextFor
        rw [Bool.not_eq_true] at hT
        rw [hT]
        rfl
      rw [hlt] at hs2
      exact absurd hs2 (by simp)

/-- Closed instance of C8: an id-less checkbox gets no label, and an
input with id `em` next to a `label for=em` gets that label's trimmed
inner text `Email`. -/
theorem claim_C8_witness :
    ({ element := 0, name := some "agree", placeholder := none,
        label := none } : FormField).label = none ∧
    (∃ el lab, (([sampleLabel, sampleEmailInput] : Page))[1]? = some el ∧
      pyTruthy el.idAttr = true ∧
      findLabelFor [sampleLabel, sampleEmailInput] (el.idAttr.getD "") =
        some lab ∧
      pyLower lab.tagName = "label" ∧ lab.forAttr = el.idAttr ∧
      "Email" = pyStrip lab.innerText) :=
  ⟨(claim_C8 [sampleCheckbox]
      { element := 0, name := some "agree", placeholder := none, label := none }
      (by decide)).1 sampleCheckbox (by decide) rfl,
   (claim_C8 [sampleLabel, sampleEmailInput]
      { element := 1, name := some "email", placeholder := none,
        label := some "Email" }
      (by decide)).2 "Email" rfl⟩

/-- C9: an input element whose `type` attribute is none of `text`,
`email`, `tel`, `number`, `checkbox`, `radio` (a missing attribute
included) is silently dropped: the filler performs no action and prints
no diagnostic, even for a non-SKIP resolved value. -/
theorem claim_C9 (oracle : ActionOracle) (page : Page) (field : FormField)
    (el : Elem) (raw : String)
    (hel : page[field.element]? = some el)
    (htag : pyLower el.tagName = "input")
    (hty : ∀ t, t ∈ ["text", "email", "tel", "number", "checkbox", "radio"] →
      el.typeAttr ≠ some t) :
    fillFieldBody oracle page field raw = ([], none) := by
  cases hta : el.typeAttr with
  | none =>
    unfold fillFieldBody
    simp [hel, htag, hta]
  | some t =>
    have hcb : t ≠ "checkbox" := by
      intro h
      exact hty "checkbox" (by simp) (by rw [hta, h])
    have hrd : t ≠ "radio" := by
      intro h
      exact hty "radio" (by simp) (by rw [hta, h])
    have hnmem : t ∉ textTypes := by
      intro hmem
      have hbig : t ∈ ["text", "email", "tel", "number", "checkbox", "radio"] := by
        simp only [textTypes] at hmem
        simp only [List.mem_cons, List.not_mem_nil, or_false] at hmem ⊢
        tauto
      exact hty t hbig hta
    unfold fillFieldBody
    simp [hel, htag, hta, hnmem, beq_eq_false_iff_ne.mpr hcb,
      beq_eq_false_iff_ne.mpr hrd]

/-- Closed instance of C9: a hidden input and an input with no `type`
attribute both produce no effect for the non-SKIP value `x`. -/
theorem claim_C9_witness :
    fillFieldBody noFailOracle [sampleHidden] (sampleField "secret") "x" =
      ([], none) ∧
    fillFieldBody noFailOracle [baseElem] (sampleField "untyped") "x" =
      ([], none) :=
  ⟨claim_C9 noFailOracle [sampleHidden] (sampleField "secret") sampleHidden
      "x" rfl (by decide) (by decide),
   claim_C9 noFailOracle [baseElem] (sampleField "untyped") baseElem
      "x" rfl (by decide) (by decide)⟩

/-- C10: the filler can only ever set a checkbox to checked, never clear
it.  A checkbox receiving a value that is not case-insensitively `yes`
or `true` produces no effect at all, and applying the whole effect
stream of `fill_fields` to the page keeps every already-checked element
checked. -/
theorem claim_C10 :
    (∀ (oracle : ActionOracle) (page : Page) (field : FormField) (el : Elem)
        (raw : String), page[field.element]? = some el →
      pyLower el.tagName = "input" → el.typeAttr = some "checkbox" →
      (["yes", "true"].contains (pyLower (pyStrip raw))) = false →
      fillFieldBody oracle page field raw = ([], none)) ∧
    (∀ (oracle : ActionOracle) (fields : List FormField) (page : Page)
        (mock_data : MockData) (complete : Completion) (j : Nat) (e : Elem),
      page[j]? = some e → e.checked = true →
      ∃ e2, (applyEffects page
          (fill_fields oracle fields page mock_data complete))[j]? = some e2 ∧
        e2.checked = true) := by
  constructor
  · intro oracle page field el raw hel htag hty hc
    have hy : pyLower (pyStrip raw) ≠ "yes" := by
      intro h
      rw [h] at hc
      exact absurd hc (by decide)
    have htr : pyLower (pyStrip raw) ≠ "true" := by
      intro h
      rw [h] at hc
      exact absurd hc (by decide)
    unfold fillFieldBody
    simp [hel, htag, hty, textTypes, hy, htr]
  · intro oracle fields page mock_data complete j e hj hc
    exact checked_mono_applyEffects
      (fill_fields oracle fields page mock_data complete) page j e hj hc

/-- Closed instance of C10: the value `no` leaves a checkbox without
effects, and a full fill pass over a `size` radio group that checks the
`M` radio leaves the pre-checked `S` radio checked. -/
theorem claim_C10_witness :
    fillFieldBody noFailOracle [sampleCheckbox] (sampleField "agree") "no" =
      ([], none) ∧
    (∃ e2, (applyEffects [sampleRadioS, sampleRadioM]
        (fill_fields noFailOracle [sampleField "size"]
          [sampleRadioS, sampleRadioM] [] (okComplete "M")))[0]? = some e2 ∧
      e2.checked = true) :=
  ⟨claim_C10.1 noFailOracle [sampleCheckbox] (sampleField "agree")
      sampleCheckbox "no" rfl (by decide) rfl (by decide),
   claim_C10.2 noFailOracle [sampleField "size"] [sampleRadioS, sampleRadioM]
      [] (okComplete "M") 0 sampleRadioS rfl rfl⟩

end FormFiller
